import Mathlib

/-!
Verification of the bingo session coordinator in `src/backend/main.py`.

The server keeps one piece of mutable state, the global boolean
`session_started`, and exposes:
  * `POST /start_session` (`start_session`): compares the submitted
    `secret_id` against the constant `HARDCODED_SECRET_ID`; on match sets
    `session_started := True`, broadcasts a `session_status` event to all
    connections and returns HTTP 200; otherwise raises HTTP 403.
  * `GET /tts` (`tts`): calls the gTTS collaborator with the request text,
    language fixed to "en" and tld "us", and streams the audio back; any
    exception becomes an HTTP 500 whose detail is the exception text.
  * Socket.IO handlers `connect`, `disconnect`, `player_win`, `master_draw`.

Each Python handler is embedded as a pure Lean function from the server
state (plus the handler inputs) to the new state together with the list of
Socket.IO emissions it performs, and for HTTP handlers the HTTP response.
-/

namespace Bingo

/-- JSON-like values, modelling the Python dict / str / int payloads
exchanged over HTTP and the Socket.IO channel. -/
inductive Json where
  | str : String → Json
  | num : Int → Json
  | obj : List (String × Json) → Json

/-- A Socket.IO session id (the `sid` argument of every event handler). -/
abbrev Sid := String

/-- Where an emission is addressed: `sio.emit(event, data)` with no `room`
argument goes to every connected client, `room=sid` goes to that single
connection only. -/
inductive Target where
  | all : Target
  | room : Sid → Target
deriving DecidableEq, Repr

/-- One `sio.emit` call: event name, payload, and addressing. -/
structure Emission where
  event : String
  payload : Json
  target : Target

/-- The whole mutable server state: the module-level global
`session_started` of `main.py`. -/
structure ServerState where
  session_started : Bool
deriving DecidableEq, Repr

/-- `session_started = False` at module load (process start). -/
def initialState : ServerState := ⟨false⟩

/-- A state in which the session has already been started. -/
def startedState : ServerState := ⟨true⟩

/-- An HTTP response: status code and JSON body.  A FastAPI
`HTTPException(status_code=c, detail=d)` is rendered as status `c` with
body `{"detail": d}`; a plain returned dict is status 200 with that dict. -/
structure HttpResponse where
  status : Nat
  body : Json

/-- The configured constant the submitted secret is compared against. -/
def HARDCODED_SECRET_ID : String := "13122025"

/-- `POST /start_session`: if the submitted `secret_id` equals
`HARDCODED_SECRET_ID`, set `session_started := True`, emit one
`session_status` broadcast to all connections and return 200; otherwise
raise HTTP 403 with a detail message, emitting nothing. -/
def start_session (st : ServerState) (secret_id : String) :
    ServerState × List Emission × HttpResponse :=
  if secret_id = HARDCODED_SECRET_ID then
    (⟨true⟩,
     [⟨"session_status",
       Json.obj [("status", Json.str "started"),
                 ("message", Json.str "Session is now active!")],
       Target.all⟩],
     ⟨200, Json.obj [("message", Json.str "Session started successfully!")]⟩)
  else
    (st, [],
     ⟨403, Json.obj [("detail",
        Json.str "Invalid Secret ID. Authorization Required.")]⟩)

/-- Socket.IO `connect` handler: sends the new client (room `sid`) one
`session_status` message reporting the current value of `session_started`. -/
def connect (st : ServerState) (sid : Sid) : ServerState × List Emission :=
  (st,
   [⟨"session_status",
     Json.obj [("status",
                Json.str (if st.session_started then "started" else "pending")),
               ("message", Json.str "Session status update.")],
     Target.room sid⟩])

/-- Socket.IO `disconnect` handler: only prints to the server log; it
emits nothing and touches no state. -/
def disconnect (st : ServerState) (sid : Sid) : ServerState × List Emission :=
  (st, [])

/-- The error payload sent back to a sender whose gated event is rejected. -/
def notStartedMsg : Json :=
  Json.obj [("message", Json.str "Game has not started yet. Session ID required.")]

/-- Socket.IO `player_win` handler: if `session_started` is false, send an
`error` event back to the sender only and return; otherwise broadcast
`bingo_win` with the inbound `data` unmodified to all connections. -/
def player_win (st : ServerState) (sid : Sid) (data : Json) :
    ServerState × List Emission :=
  if st.session_started = false then
    (st, [⟨"error", notStartedMsg, Target.room sid⟩])
  else
    (st, [⟨"bingo_win", data, Target.all⟩])

/-- Socket.IO `master_draw` handler: same gating as `player_win`; on
success broadcast `number_drawn` with the inbound `data` unmodified. -/
def master_draw (st : ServerState) (sid : Sid) (data : Json) :
    ServerState × List Emission :=
  if st.session_started = false then
    (st, [⟨"error", notStartedMsg, Target.room sid⟩])
  else
    (st, [⟨"number_drawn", data, Target.all⟩])

/-- The argument record the handler passes to the gTTS constructor:
`gTTS(text=text, lang='en', tld='us')`. -/
structure GTTSRequest where
  text : String
  lang : String
  tld : String
deriving DecidableEq, Repr

/-- Outcome of `GET /tts`: a streamed response with a media type and the
audio bytes, or an HTTP error status with a detail string. -/
inductive TtsResult where
  | stream : String → List Nat → TtsResult
  | failure : Nat → String → TtsResult
deriving DecidableEq, Repr

/-- The gTTS request `tts` builds from the query parameters: the supplied
`text` is passed through, but `lang` is the literal `'en'` and `tld` the
literal `'us'` regardless of the `lang` query parameter. -/
def ttsRequest (text : String) (lang : String) : GTTSRequest :=
  ⟨text, "en", "us"⟩

/-- `GET /tts?text=..&lang=..`: call the gTTS collaborator (modelled as a
function from the request record to either audio bytes or an exception
message) and return a `StreamingResponse` with media type `audio/mpeg`, or
on exception an HTTP 500 whose detail is the exception text. -/
def tts (gtts : GTTSRequest → Except String (List Nat))
    (text : String) (lang : String) : TtsResult :=
  match gtts (ttsRequest text lang) with
  | .ok mp3 => .stream "audio/mpeg" mp3
  | .error e => .failure 500 e

/-- One inbound unit of work for the server: an HTTP call or a Socket.IO
event, used to talk about whole executions. -/
inductive Event where
  | startSession : String → Event
  | connectEv : Sid → Event
  | disconnectEv : Sid → Event
  | playerWin : Sid → Json → Event
  | masterDraw : Sid → Json → Event
  | ttsEv : String → String → Event

/-- The state-and-emissions effect of handling one event.  The `tts`
handler never reads or writes `session_started` and performs no Socket.IO
emission, so its step leaves the state unchanged and emits nothing. -/
def step (st : ServerState) (e : Event) : ServerState × List Emission :=
  match e with
  | .startSession secret =>
      ((start_session st secret).1, (start_session st secret).2.1)
  | .connectEv sid => connect st sid
  | .disconnectEv sid => disconnect st sid
  | .playerWin sid data => player_win st sid data
  | .masterDraw sid data => master_draw st sid data
  | .ttsEv _ _ => (st, [])

/-- Whether an event is a `start_session` call carrying the correct
secret, i.e. the sole write path into `session_started`. -/
def authEvent : Event → Bool
  | .startSession secret => secret == HARDCODED_SECRET_ID
  | _ => false

/-- Final state after handling a list of events in order. -/
def runEvents (st : ServerState) (evs : List Event) : ServerState :=
  evs.foldl (fun s e => (step s e).1) st

/-! ## Helper lemmas -/

theorem step_started_mono (st : ServerState) (e : Event)
    (h : st.session_started = true) : (step st e).1.session_started = true := by
  cases e <;>
    simp_all [step, start_session, connect, disconnect, player_win, master_draw] <;>
    split <;> simp_all

theorem runEvents_started_mono (st : ServerState) (evs : List Event)
    (h : st.session_started = true) :
    (runEvents st evs).session_started = true := by
  induction evs generalizing st with
  | nil => exact h
  | cons e evs ih =>
      exact ih (step st e).1 (step_started_mono st e h)

/-! ## Claim theorems -/

/-- C1: for every submitted secret not equal to the configured constant,
`start_session` returns HTTP 403 with a detail message, leaves the state
(in particular `session_started`) unchanged, and emits nothing. -/
theorem wrong_secret_rejected (st : ServerState) (secret : String)
    (h : secret ≠ HARDCODED_SECRET_ID) :
    start_session st secret =
      (st, [],
       ⟨403, Json.obj [("detail",
          Json.str "Invalid Secret ID. Authorization Required.")]⟩) := by
  simp [start_session, h]

theorem wrong_secret_rejected_witness :
    start_session initialState "0000" =
      (initialState, [],
       ⟨403, Json.obj [("detail",
          Json.str "Invalid Secret ID. Authorization Required.")]⟩) :=
  wrong_secret_rejected initialState "0000" (by decide)

/-- C2: `start_session` with the configured secret sets `session_started`
to true, answers HTTP 200 with a success message and emits exactly one
`session_status` broadcast with status "started" addressed to all
connections; a repeated call leaves the state at `session_started = true`
and again emits exactly that one broadcast. -/
theorem correct_secret_starts (st : ServerState) :
    start_session st HARDCODED_SECRET_ID =
      (⟨true⟩,
       [⟨"session_status",
         Json.obj [("status", Json.str "started"),
                   ("message", Json.str "Session is now active!")],
         Target.all⟩],
       ⟨200, Json.obj [("message", Json.str "Session started successfully!")]⟩) ∧
    start_session (start_session st HARDCODED_SECRET_ID).1 HARDCODED_SECRET_ID =
      (⟨true⟩,
       [⟨"session_status",
         Json.obj [("status", Json.str "started"),
                   ("message", Json.str "Session is now active!")],
         Target.all⟩],
       ⟨200, Json.obj [("message", Json.str "Session started successfully!")]⟩) := by
  constructor <;> simp [start_session]

/-- C3: `session_started` is false at process start, and a step of any
event leaves it exactly at `old value OR (event is a start_session call
with the correct secret)`: only the authorization path ever sets it, no
event ever resets it, and `connect`, `disconnect`, `player_win`,
`master_draw` and `tts` leave it unchanged. -/
theorem session_started_lifecycle :
    initialState.session_started = false ∧
    ∀ (st : ServerState) (e : Event),
      (step st e).1.session_started = (st.session_started || authEvent e) := by
  refine ⟨rfl, fun st e => ?_⟩
  cases e with
  | startSession secret =>
      by_cases h : secret = HARDCODED_SECRET_ID <;>
        simp [step, start_session, authEvent, h]
  | playerWin sid data =>
      cases hs : st.session_started <;> simp [step, player_win, authEvent, hs]
  | masterDraw sid data =>
      cases hs : st.session_started <;> simp [step, master_draw, authEvent, hs]
  | connectEv sid => simp [step, connect, authEvent]
  | disconnectEv sid => simp [step, disconnect, authEvent]
  | ttsEv text lang => simp [step, authEvent]

/-- C4: while `session_started` is false, `player_win` and `master_draw`
each emit exactly one `error` event addressed to the originating
connection only (no `bingo_win` or `number_drawn` broadcast) and leave the
state unchanged, discarding the payload. -/
theorem gated_events_rejected (st : ServerState) (sid : Sid) (data : Json)
    (h : st.session_started = false) :
    player_win st sid data = (st, [⟨"error", notStartedMsg, Target.room sid⟩]) ∧
    master_draw st sid data = (st, [⟨"error", notStartedMsg, Target.room sid⟩]) := by
  constructor <;> simp [player_win, master_draw, h]

theorem gated_events_rejected_witness :
    player_win initialState "s1" (Json.obj [("number", Json.num 7)]) =
      (initialState, [⟨"error", notStartedMsg, Target.room "s1"⟩]) ∧
    master_draw initialState "s1" (Json.obj [("number", Json.num 7)]) =
      (initialState, [⟨"error", notStartedMsg, Target.room "s1"⟩]) :=
  gated_events_rejected initialState "s1" (Json.obj [("number", Json.num 7)]) rfl

/-- C5: while `session_started` is true, `master_draw` broadcasts one
`number_drawn` event carrying the unmodified inbound payload to all
connections (sender included), and `player_win` likewise broadcasts
`bingo_win` with the unmodified payload; the payload is arbitrary, so no
validation is applied. -/
theorem started_events_broadcast (st : ServerState) (sid : Sid) (data : Json)
    (h : st.session_started = true) :
    master_draw st sid data = (st, [⟨"number_drawn", data, Target.all⟩]) ∧
    player_win st sid data = (st, [⟨"bingo_win", data, Target.all⟩]) := by
  constructor <;> simp [player_win, master_draw, h]

theorem started_events_broadcast_witness :
    master_draw startedState "s1" (Json.obj [("number", Json.num 7)]) =
      (startedState, [⟨"number_drawn", Json.obj [("number", Json.num 7)],
        Target.all⟩]) ∧
    player_win startedState "s1" (Json.obj [("name", Json.str "Alice"),
        ("type", Json.str "row")]) =
      (startedState, [⟨"bingo_win", Json.obj [("name", Json.str "Alice"),
        ("type", Json.str "row")], Target.all⟩]) :=
  ⟨(started_events_broadcast startedState "s1"
      (Json.obj [("number", Json.num 7)]) rfl).1,
   (started_events_broadcast startedState "s1"
      (Json.obj [("name", Json.str "Alice"), ("type", Json.str "row")]) rfl).2⟩

/-- C6: the `connect` handler sends exactly one `session_status` message
addressed only to the new connection, whose status field is "pending" when
`session_started` is false at that moment and "started" when it is true;
the state is untouched. -/
theorem connect_reports_status (st : ServerState) (sid : Sid) :
    (st.session_started = false →
       connect st sid =
         (st, [⟨"session_status",
           Json.obj [("status", Json.str "pending"),
                     ("message", Json.str "Session status update.")],
           Target.room sid⟩])) ∧
    (st.session_started = true →
       connect st sid =
         (st, [⟨"session_status",
           Json.obj [("status", Json.str "started"),
                     ("message", Json.str "Session status update.")],
           Target.room sid⟩])) := by
  constructor <;> intro h <;> simp [connect, h]

theorem connect_reports_status_witness :
    connect initialState "s1" =
      (initialState, [⟨"session_status",
        Json.obj [("status", Json.str "pending"),
                  ("message", Json.str "Session status update.")],
        Target.room "s1"⟩]) ∧
    connect startedState "s2" =
      (startedState, [⟨"session_status",
        Json.obj [("status", Json.str "started"),
                  ("message", Json.str "Session status update.")],
        Target.room "s2"⟩]) :=
  ⟨(connect_reports_status initialState "s1").1 rfl,
   (connect_reports_status startedState "s2").2 rfl⟩

/-- C7 counterexample: the claim says `tts` delegates the supplied `lang`
to the gTTS collaborator, but the request record the handler builds for
the query `text="hello"`, `lang="fr"` carries language "en", not "fr";
a collaborator that reports back the language it was given receives "en". -/
theorem tts_lang_not_delegated :
    (ttsRequest "hello" "fr").lang = "en" ∧
    tts (fun r => Except.error r.lang) "hello" "fr" =
      TtsResult.failure 500 "en" ∧
    ("en" : String) ≠ "fr" := by
  refine ⟨rfl, rfl, by decide⟩

/-- C7 amended: `tts` delegates the supplied text — with the language
fixed to "en" and tld "us", ignoring the `lang` query parameter — to the
gTTS collaborator, and returns an `audio/mpeg` stream of the collaborator
output on success, or HTTP 500 whose detail is the collaborator failure
message on failure. -/
theorem tts_delegates (gtts : GTTSRequest → Except String (List Nat))
    (text lang : String) :
    ttsRequest text lang = ⟨text, "en", "us"⟩ ∧
    (∀ mp3, gtts (ttsRequest text lang) = Except.ok mp3 →
       tts gtts text lang = TtsResult.stream "audio/mpeg" mp3) ∧
    (∀ msg, gtts (ttsRequest text lang) = Except.error msg →
       tts gtts text lang = TtsResult.failure 500 msg) := by
  refine ⟨rfl, fun mp3 h => ?_, fun msg h => ?_⟩ <;> simp [tts, h]

theorem tts_delegates_witness :
    tts (fun r => Except.ok [1, 2, 3]) "hi" "fr" =
      TtsResult.stream "audio/mpeg" [1, 2, 3] ∧
    tts (fun r => Except.error "boom") "hi" "fr" =
      TtsResult.failure 500 "boom" :=
  ⟨(tts_delegates (fun r => Except.ok [1, 2, 3]) "hi" "fr").2.1 [1, 2, 3] rfl,
   (tts_delegates (fun r => Except.error "boom") "hi" "fr").2.2 "boom" rfl⟩

/-- C8: the `disconnect` handler emits no message to any connection and
leaves the state, in particular `session_started`, unchanged. -/
theorem disconnect_silent (st : ServerState) (sid : Sid) :
    disconnect st sid = (st, []) := rfl

/-- C9: after a `start_session` call with the correct secret, whatever
events follow, a later `player_win` or `master_draw` never takes the error
branch: it broadcasts (`bingo_win` resp. `number_drawn`) instead of
emitting a `SessionNotStarted` error. -/
theorem no_rejection_after_start (s0 : ServerState) (evs : List Event)
    (sid : Sid) (data : Json) :
    player_win (runEvents (start_session s0 HARDCODED_SECRET_ID).1 evs) sid data =
      (runEvents (start_session s0 HARDCODED_SECRET_ID).1 evs,
       [⟨"bingo_win", data, Target.all⟩]) ∧
    master_draw (runEvents (start_session s0 HARDCODED_SECRET_ID).1 evs) sid data =
      (runEvents (start_session s0 HARDCODED_SECRET_ID).1 evs,
       [⟨"number_drawn", data, Target.all⟩]) := by
  have h1 : (start_session s0 HARDCODED_SECRET_ID).1.session_started = true := by
    simp [start_session]
  have h2 := runEvents_started_mono (start_session s0 HARDCODED_SECRET_ID).1 evs h1
  constructor <;> simp [player_win, master_draw, h2]

/-- C10: the HTTP response of `start_session` depends only on the
submitted secret, never on the current state; in particular a correct
secret submitted when the session is already started still gets HTTP 200
with the success message. -/
theorem response_state_independent (st1 st2 : ServerState) (secret : String) :
    (start_session st1 secret).2.2 = (start_session st2 secret).2.2 ∧
    (start_session startedState HARDCODED_SECRET_ID).2.2 =
      ⟨200, Json.obj [("message", Json.str "Session started successfully!")]⟩ := by
  constructor
  · by_cases h : secret = HARDCODED_SECRET_ID <;> simp [start_session, h]
  · simp [start_session]

end Bingo
